import Mathlib

/-!
Verification development for the streaming connection resilience engine of the
BinanceApi repository (`src/app/marketWatcher.js`).

The JavaScript module is shallowly embedded as follows.

* Module-level configuration constants keep their source names and values.
* The symbol-list configuration pipeline (`split(',')`, `trim`, `toLowerCase`,
  `filter(Boolean)`) is `parseSymbols`; `buildUrl` is translated line by line,
  taking the `SYMBOLS` list and the (already lower-cased) `TIME_UNIT` string as
  parameters instead of reading module globals.
* The module-level mutable state (`ws`, counters, timestamps, timers, the
  `dataMap` snapshot cache, the `shuttingDown` flag) becomes the record
  `WatcherState`.  `ws = new WebSocket(url)` is modelled by the flag
  `wsExists` plus an emitted `Action.openSocket`; `process.exit(code)` is
  modelled by setting the `exited` field, and — since `process.exit` never
  returns and tears down the event loop — a state with `exited.isSome` absorbs
  every further event as a no-op in `step`.
* Every `ws.on(...)` handler and every timer callback is a function from the
  state (plus the data carried by the event: the current `Date.now()` value,
  the ping payload as raw bytes, the parsed message, the value of
  `Math.random()`) to a new state and a list of outbound `Action`s
  (`ws.pong(payload)`, `ws.ping()`, `ws.close()`, `ws.terminate()`,
  `setTimeout` of a reconnect).  `Math.random()` is modelled as a rational
  input `rand` carried by the close event.
* Inbound frames reach the message handler through `JSON.parse`; the handler's
  input is modelled as `Option Json` (`none` = `JSON.parse` threw).  JS
  truthiness of parsed values is `truthy`; property access `x.f` is
  `getField`; `Map.prototype.set/get` are `mapSet`/`mapGet` over an
  insertion-ordered association list (key equality `jsonBeq` is structural,
  which agrees with the JS `Map` SameValueZero comparison on the primitive
  keys the feed produces).
-/

namespace MarketWatcher

/-! ### Configuration constants (source lines 24-33) -/

def MAX_STREAMS : Nat := 512

def DISPLAY_INTERVAL_MS : Nat := 10000

def HARD_RESET_INTERVAL_MS : Nat := 12 * 60 * 60 * 1000

def ENDPOINT : String := "wss://data-stream.binance.vision/stream"

def USE_ALL_MINI_THRESHOLD : Nat := 200

def MAX_DISCONNECTS : Nat := 5

def EXPECTED_PING_INTERVAL_MS : Nat := 60000

def GRACE_NO_PING_MS : Nat := 75000

def UNSOLICITED_PING_AFTER_MS : Nat := 50000

/-- JS `String.prototype.split(',')` over the character list (an empty input
yields `[""]`, exactly as in JS). -/
def splitCommaAux : List Char → List (List Char)
  | [] => [[]]
  | c :: cs =>
    if c = ',' then [] :: splitCommaAux cs
    else
      match splitCommaAux cs with
      | [] => [[c]]
      | g :: gs => (c :: g) :: gs

/-- JS `String.prototype.split(',')`. -/
def jsSplitComma (s : String) : List String :=
  (splitCommaAux s.data).map String.mk

/-- JS `String.prototype.trim()`: strip leading and trailing whitespace. -/
def jsTrim (s : String) : String :=
  String.mk (((s.data.dropWhile Char.isWhitespace).reverse.dropWhile
    Char.isWhitespace).reverse)

/-- JS `String.prototype.toLowerCase()` (the config symbols are ASCII). -/
def jsToLower (s : String) : String :=
  String.mk (s.data.map Char.toLower)

/-- The `SYMBOLS` configuration pipeline:
`(raw).split(',').map(s => s.trim().toLowerCase()).filter(Boolean)`
(`filter(Boolean)` drops exactly the empty strings). -/
def parseSymbols (raw : String) : List String :=
  ((jsSplitComma raw).map (fun s => jsToLower (jsTrim s))).filter (fun s => s != "")

/-- JS `TIME_UNIT.startsWith('micro')`. -/
def startsWithMicro (s : String) : Bool :=
  List.isPrefixOf "micro".data s.data

/-- `TIME_UNIT.startsWith('micro') ? '&timeUnit=MICROSECOND' : ''`, shared by
both branches of `buildUrl`. -/
def timeUnitSuffix (TIME_UNIT : String) : String :=
  if startsWithMicro TIME_UNIT then "&timeUnit=MICROSECOND" else ""

/-- `buildUrl` (source lines 52-63), with the module globals `SYMBOLS` and
`TIME_UNIT` as parameters.  The `SYMBOLS.length > MAX_STREAMS` branch in the
source only logs (`console.error`) and does not change the produced URL, so it
is invisible here. -/
def buildUrl (SYMBOLS : List String) (TIME_UNIT : String) : String :=
  if SYMBOLS.length > USE_ALL_MINI_THRESHOLD then
    ENDPOINT ++ "?streams=!miniTicker@arr" ++ timeUnitSuffix TIME_UNIT
  else
    let limited := SYMBOLS.take MAX_STREAMS
    let stream := String.intercalate "/" (limited.map (fun s => s ++ "@miniTicker"))
    ENDPOINT ++ "?streams=" ++ stream ++ timeUnitSuffix TIME_UNIT

/-! ### Parsed JSON values -/

/-- Values produced by `JSON.parse`. -/
inductive Json where
  | null
  | bool (b : Bool)
  | num (n : Int)
  | str (s : String)
  | arr (xs : List Json)
  | obj (fields : List (String × Json))
deriving Repr

mutual

/-- Structural equality on parsed JSON values (used as the `Map` key
comparison; it agrees with JS SameValueZero on primitives). -/
def jsonBeq : Json → Json → Bool
  | Json.null, Json.null => true
  | Json.bool a, Json.bool b => a == b
  | Json.num a, Json.num b => a == b
  | Json.str a, Json.str b => a == b
  | Json.arr xs, Json.arr ys => jsonListBeq xs ys
  | Json.obj fs, Json.obj gs => jsonFieldsBeq fs gs
  | _, _ => false

/-- Elementwise `jsonBeq` on arrays. -/
def jsonListBeq : List Json → List Json → Bool
  | [], [] => true
  | x :: xs, y :: ys => jsonBeq x y && jsonListBeq xs ys
  | _, _ => false

/-- Elementwise `jsonBeq` on object field lists. -/
def jsonFieldsBeq : List (String × Json) → List (String × Json) → Bool
  | [], [] => true
  | (k1, v1) :: fs, (k2, v2) :: gs => k1 == k2 && jsonBeq v1 v2 && jsonFieldsBeq fs gs
  | _, _ => false

end

/-- JS truthiness of a parsed JSON value (`NaN` cannot arise from integral
ticker fields; `0`, `''`, `null`, `false` are falsy, arrays and objects are
truthy). -/
def truthy : Json → Bool
  | Json.null => false
  | Json.bool b => b
  | Json.num n => n != 0
  | Json.str s => s != ""
  | Json.arr _ => true
  | Json.obj _ => true

/-- Property access `j.key` on a parsed value: `none` models `undefined`. -/
def getField (j : Json) (key : String) : Option Json :=
  match j with
  | Json.obj fields => (fields.find? (fun p => p.1 == key)).map (fun p => p.2)
  | _ => none

/-- `Map.prototype.set`: update in place when the key is present (keeping the
original key and insertion order), append otherwise. -/
def mapSet (m : List (Json × Json)) (k v : Json) : List (Json × Json) :=
  if m.any (fun p => jsonBeq p.1 k) then
    m.map (fun p => if jsonBeq p.1 k then (p.1, v) else p)
  else
    m ++ [(k, v)]

/-- `Map.prototype.get`. -/
def mapGet (m : List (Json × Json)) (k : Json) : Option Json :=
  (m.find? (fun p => jsonBeq p.1 k)).map (fun p => p.2)

/-! ### Engine state, outbound actions, events -/

/-- The module-level mutable state of `marketWatcher.js`. -/
structure WatcherState where
  wsExists : Bool
  connectCount : Nat
  disconnectCount : Nat
  lastMessageTs : Nat
  lastPingTs : Nat
  lastPongTs : Nat
  shuttingDown : Bool
  reconnectAttempts : Nat
  displayTimerOn : Bool
  healthTimerOn : Bool
  hardResetOn : Bool
  dataMap : List (Json × Json)
  exited : Option Int
deriving Repr

/-- The initial module state (all counters and timestamps start at `0`,
`ws = null`, no timers scheduled). -/
def initState : WatcherState where
  wsExists := false
  connectCount := 0
  disconnectCount := 0
  lastMessageTs := 0
  lastPingTs := 0
  lastPongTs := 0
  shuttingDown := false
  reconnectAttempts := 0
  displayTimerOn := false
  healthTimerOn := false
  hardResetOn := false
  dataMap := []
  exited := none

/-- Outbound effects a handler can perform on the transport or scheduler. -/
inductive Action where
  | openSocket
  | sendPong (payload : List Nat)
  | sendPing
  | sendClose
  | terminateSocket
  | scheduleReconnect (delay : ℚ)
deriving Repr, DecidableEq

/-- One occurrence of a transport callback, timer callback, or exported entry
point.  `now` is the value `Date.now()` returns during the callback, `rand`
the value `Math.random()` returns, `wsOpen` whether
`ws.readyState === WebSocket.OPEN`, `raw` the `JSON.parse` result of an
inbound frame (`none` if parsing threw), `code` the argument of
`stopMarketWatcher` (`none` models JS `null`). -/
inductive Event where
  | openEv (now : Nat)
  | pingEv (now : Nat) (payload : List Nat)
  | pongEv (now : Nat)
  | messageEv (now : Nat) (raw : Option Json)
  | closeEv (rand : ℚ)
  | errorEv
  | healthTick (now : Nat) (wsOpen : Bool)
  | displayTick (now : Nat)
  | hardResetFire
  | reconnectFire
  | startEv
  | stopEv (code : Option Int)

/-! ### Handlers (source lines 110-223) -/

/-- The body of `connect()` that runs immediately (source lines 143-146):
`ws = new WebSocket(url); connectCount += 1`. -/
def connectStep (s : WatcherState) : WatcherState × List Action :=
  ({ s with wsExists := true, connectCount := s.connectCount + 1 }, [Action.openSocket])

/-- `safeReconnect()` (source lines 136-140). -/
def safeReconnect (s : WatcherState) : WatcherState × List Action :=
  if !s.wsExists then connectStep s
  else (s, [Action.terminateSocket])

/-- `ws.on('open')` (source lines 149-153). -/
def handleOpen (s : WatcherState) (now : Nat) : WatcherState × List Action :=
  ({ s with reconnectAttempts := 0, lastMessageTs := now }, [])

/-- `ws.on('ping')` (source lines 155-158): stamp `lastPingTs`, reply
`ws.pong(payload)`, stamp `lastPongTs` (the non-throwing path of the
`try`/`catch`). -/
def handlePing (s : WatcherState) (now : Nat) (payload : List Nat) :
    WatcherState × List Action :=
  ({ s with lastPingTs := now, lastPongTs := now }, [Action.sendPong payload])

/-- `ws.on('pong')` (source line 160). -/
def handlePong (s : WatcherState) (now : Nat) : WatcherState × List Action :=
  ({ s with lastPongTs := now }, [])

/-- `const payload = msg.data || msg` in the message handler. -/
def resolvePayload (msg : Json) : Json :=
  match getField msg "data" with
  | some d => if truthy d then d else msg
  | none => msg

/-- `if (entry && entry.s) dataMap.set(entry.s, entry)` — applied both to each
array element and to a non-array payload. -/
def applyEntry (m : List (Json × Json)) (entry : Json) : List (Json × Json) :=
  match getField entry "s" with
  | some sv => if truthy entry && truthy sv then mapSet m sv entry else m
  | none => m

/-- The guard `entry && entry.s` of the message handler, as a predicate: the
entry is a usable ticker object exactly when it is truthy and carries a truthy
`s` field. -/
def entryUsable (entry : Json) : Bool :=
  match getField entry "s" with
  | some sv => truthy entry && truthy sv
  | none => false

/-- The usable ticker objects a resolved payload contributes to the cache:
the usable elements of an array payload, the payload itself (if usable)
otherwise. -/
def usableTickers (p : Json) : List Json :=
  match p with
  | Json.arr entries => entries.filter entryUsable
  | _ => if entryUsable p then [p] else []

/-- The `Array.isArray(payload)` dispatch of the message handler: iterate
`applyEntry` over an array payload, apply it once to anything else. -/
def applyPayload (m : List (Json × Json)) (p : Json) : List (Json × Json) :=
  match p with
  | Json.arr entries => entries.foldl applyEntry m
  | _ => applyEntry m p

/-- `ws.on('message')` (source lines 162-177).  A `raw` of `none` models a
frame whose text made `JSON.parse` throw; the `catch` ignores the error, so
only the `lastMessageTs` stamp (taken before the `try`) survives. -/
def handleMessage (s : WatcherState) (now : Nat) (raw : Option Json) :
    WatcherState × List Action :=
  match raw with
  | none => ({ s with lastMessageTs := now }, [])
  | some msg =>
    ({ s with lastMessageTs := now,
              dataMap := applyPayload s.dataMap (resolvePayload msg) }, [])

/-- `attemptReconnect()` (source lines 195-201): increment the attempt
counter, compute the clamped exponential delay plus jitter, and schedule the
reconnect timer. -/
def attemptReconnect (s : WatcherState) (rand : ℚ) : WatcherState × List Action :=
  let k := s.reconnectAttempts + 1
  let delay : ℚ := min (1000 * (2 : ℚ) ^ (min k 5)) 15000
  let jitter : ℚ := rand * 500
  ({ s with reconnectAttempts := k }, [Action.scheduleReconnect (delay + jitter)])

/-- `ws.on('close')` (source lines 179-188): the disconnect counter is
incremented before the `shuttingDown` check; at `MAX_DISCONNECTS` cumulative
disconnects the process exits with status `1`; otherwise a reconnect is
attempted. -/
def handleClose (s : WatcherState) (rand : ℚ) : WatcherState × List Action :=
  let s1 := { s with disconnectCount := s.disconnectCount + 1 }
  if s1.shuttingDown then (s1, [])
  else if s1.disconnectCount ≥ MAX_DISCONNECTS then
    ({ s1 with exited := some 1 }, [])
  else
    attemptReconnect s1 rand

/-- `ws.on('error')` (source lines 190-192): log only. -/
def handleError (s : WatcherState) : WatcherState × List Action :=
  (s, [])

/-- The `setInterval` callback of `scheduleHealthLoop` (source lines 110-125).
`wsOpen` is `ws.readyState === WebSocket.OPEN`.  Subtraction is `Nat`
subtraction, which agrees with JS on the two `>` comparisons since `Date.now()`
is nondecreasing and both thresholds are positive. -/
def handleHealthTick (s : WatcherState) (now : Nat) (wsOpen : Bool) :
    WatcherState × List Action :=
  if s.shuttingDown then (s, [])
  else
    let pingActs :=
      if s.lastPingTs != 0 && decide (now - s.lastPingTs > UNSOLICITED_PING_AFTER_MS) &&
          s.wsExists && wsOpen then
        [Action.sendPing]
      else []
    if now - s.lastPingTs > GRACE_NO_PING_MS then
      let r := safeReconnect s
      (r.1, pingActs ++ r.2)
    else (s, pingActs)

/-- The `setInterval` callback of `scheduleDisplayLoop` (source lines 75-108):
purely observational, mutates nothing. -/
def handleDisplayTick (s : WatcherState) : WatcherState × List Action :=
  if s.shuttingDown then (s, []) else (s, [])

/-- The `setTimeout` callback of `scheduleHardReset` (source lines 127-134). -/
def handleHardReset (s : WatcherState) : WatcherState × List Action :=
  if s.shuttingDown then (s, []) else safeReconnect s

/-- The `setTimeout` callback scheduled by `attemptReconnect`
(source line 200): `if (!shuttingDown) connect()`. -/
def handleReconnectFire (s : WatcherState) : WatcherState × List Action :=
  if s.shuttingDown then (s, []) else connectStep s

/-- `startMarketWatcher()` (source lines 204-211): a no-op when a socket
already exists; otherwise schedule the three timers and connect. -/
def startMarketWatcher (s : WatcherState) : WatcherState × List Action :=
  if s.wsExists then (s, [])
  else
    connectStep
      { s with displayTimerOn := true, healthTimerOn := true, hardResetOn := true }

/-- `stopMarketWatcher(code = 0)` (source lines 214-223): set the shutdown
flag, cancel the three timers, best-effort `ws?.close()` (the non-throwing
path of the `try`/`catch`; no close is attempted when `ws` is `null`), then
`process.exit(code)` unless `code` is `null` (`none`). -/
def stopMarketWatcher (s : WatcherState) (code : Option Int) :
    WatcherState × List Action :=
  if s.shuttingDown then (s, [])
  else
    let s1 := { s with shuttingDown := true, displayTimerOn := false,
                       healthTimerOn := false, hardResetOn := false }
    let acts := if s.wsExists then [Action.sendClose] else []
    match code with
    | some c => ({ s1 with exited := some c }, acts)
    | none => (s1, acts)

/-- The JS default parameter of `stopMarketWatcher`: a call that omits the
argument runs with `code = 0`. -/
def stopDefaultExitCode : Int := 0

/-- `stopMarketWatcher()` called with no argument. -/
def stopOmittedArg (s : WatcherState) : WatcherState × List Action :=
  stopMarketWatcher s (some stopDefaultExitCode)

/-- Dispatch one event to its handler.  A state with `exited.isSome` has
called `process.exit`, which never returns and tears down the event loop, so
no further callback runs. -/
def step (s : WatcherState) (e : Event) : WatcherState × List Action :=
  if s.exited.isSome then (s, [])
  else
    match e with
    | Event.openEv now => handleOpen s now
    | Event.pingEv now payload => handlePing s now payload
    | Event.pongEv now => handlePong s now
    | Event.messageEv now raw => handleMessage s now raw
    | Event.closeEv rand => handleClose s rand
    | Event.errorEv => handleError s
    | Event.healthTick now wsOpen => handleHealthTick s now wsOpen
    | Event.displayTick _ => handleDisplayTick s
    | Event.hardResetFire => handleHardReset s
    | Event.reconnectFire => handleReconnectFire s
    | Event.startEv => startMarketWatcher s
    | Event.stopEv code => stopMarketWatcher s code

/-- Run a sequence of events from a state, keeping the final state. -/
def run (s : WatcherState) : List Event → WatcherState
  | [] => s
  | e :: es => run (step s e).1 es

/-! ### Shared helper lemmas -/

/-- The only event that ever lowers the reconnect-attempt counter is a
successful `open` (which resets it to `0`). -/
theorem reconnectAttempts_decrease_only_on_open (s : WatcherState) (e : Event)
    (h : (step s e).1.reconnectAttempts < s.reconnectAttempts) :
    ∃ now, e = Event.openEv now := by
  by_cases hx : s.exited.isSome
  · unfold step at h
    rw [if_pos hx] at h
    exact absurd h (lt_irrefl _)
  · unfold step at h
    rw [if_neg hx] at h
    cases e with
    | openEv now => exact ⟨now, rfl⟩
    | pingEv now payload => simp [handlePing] at h
    | pongEv now => simp [handlePong] at h
    | messageEv now raw =>
      cases raw with
      | none => simp [handleMessage] at h
      | some msg => simp [handleMessage] at h
    | closeEv rand =>
      simp only [handleClose, attemptReconnect] at h
      split at h
      · simp at h
      · split at h
        · simp at h
        · simp at h
    | errorEv => simp [handleError] at h
    | healthTick now wsOpen =>
      simp only [handleHealthTick, safeReconnect, connectStep] at h
      split at h
      · simp at h
      · split at h
        · split at h <;> simp at h
        · simp at h
    | displayTick now =>
      simp only [handleDisplayTick] at h
      split at h <;> simp at h
    | hardResetFire =>
      simp only [handleHardReset, safeReconnect, connectStep] at h
      split at h
      · simp at h
      · split at h <;> simp at h
    | reconnectFire =>
      simp only [handleReconnectFire, connectStep] at h
      split at h <;> simp at h
    | startEv =>
      simp only [startMarketWatcher, connectStep] at h
      split at h <;> simp at h
    | stopEv code =>
      simp only [stopMarketWatcher] at h
      split at h
      · simp at h
      · split at h <;> simp at h

/-- `getField` only succeeds on objects. -/
theorem getField_some_obj {j : Json} {key : String} {v : Json}
    (h : getField j key = some v) : ∃ fs, j = Json.obj fs := by
  cases j <;> simp [getField] at h ⊢

/-- Setting a key and reading it back yields the written value, for any key
`jsonBeq`-equal to itself. -/
theorem mapGet_mapSet_self (m : List (Json × Json)) (k v : Json)
    (hk : jsonBeq k k = true) :
    mapGet (mapSet m k v) k = some v := by
  induction m with
  | nil => simp [mapSet, mapGet, List.find?, hk]
  | cons p m ih =>
    by_cases h1 : jsonBeq p.1 k = true
    · have hany : (p :: m).any (fun q => jsonBeq q.1 k) = true := by
        simp [List.any_cons, h1]
      rw [mapSet, if_pos hany]
      simp only [List.map_cons, if_pos h1]
      rw [mapGet]
      simp [List.find?, h1]
    · have hcons : mapSet (p :: m) k v = p :: mapSet m k v := by
        rw [mapSet, mapSet]
        by_cases h2 : m.any (fun q => jsonBeq q.1 k) = true
        · rw [if_pos (by simp [List.any_cons, h2]), if_pos h2]
          simp only [List.map_cons, h1, if_false, Bool.false_eq_true]
        · rw [if_neg (by simp [List.any_cons, h1, h2]), if_neg h2]
          rfl
      rw [hcons, mapGet]
      simp only [List.find?, h1]
      exact ih

/-- `Map.prototype.set` never shrinks the map. -/
theorem length_le_mapSet (m : List (Json × Json)) (k v : Json) :
    m.length ≤ (mapSet m k v).length := by
  unfold mapSet
  split
  · simp
  · simp

/-- One cache update never shrinks the map. -/
theorem length_le_applyEntry (m : List (Json × Json)) (entry : Json) :
    m.length ≤ (applyEntry m entry).length := by
  unfold applyEntry
  split
  · split
    · exact length_le_mapSet m _ _
    · exact le_refl _
  · exact le_refl _

/-- A whole payload never shrinks the map. -/
theorem length_le_applyPayload (m : List (Json × Json)) (p : Json) :
    m.length ≤ (applyPayload m p).length := by
  have hfold : ∀ (entries : List Json) (m0 : List (Json × Json)),
      m0.length ≤ (entries.foldl applyEntry m0).length := by
    intro entries
    induction entries with
    | nil => intro m0; exact le_refl _
    | cons e es ih =>
      intro m0
      exact le_trans (length_le_applyEntry m0 e) (ih (applyEntry m0 e))
  cases p <;> simp only [applyPayload] <;>
    first
      | exact hfold _ m
      | exact length_le_applyEntry m _

/-- An entry whose `entry && entry.s` guard fails leaves the cache alone. -/
theorem applyEntry_not_usable (m : List (Json × Json)) (entry : Json)
    (h : entryUsable entry = false) : applyEntry m entry = m := by
  unfold applyEntry
  cases hf : getField entry "s" with
  | none => rfl
  | some sv =>
    dsimp only
    have h2 : (truthy entry && truthy sv) = false := by
      unfold entryUsable at h
      rw [hf] at h
      simpa using h
    simp [h2]

/-- Folding a batch of unusable entries leaves the cache alone. -/
theorem foldl_applyEntry_no_usable (entries : List Json) (m : List (Json × Json))
    (h : ∀ e ∈ entries, entryUsable e = false) :
    List.foldl applyEntry m entries = m := by
  induction entries generalizing m with
  | nil => rfl
  | cons e es ih =>
    rw [List.foldl_cons, applyEntry_not_usable m e (h e (by simp))]
    exact ih m (fun x hx => h x (by simp [hx]))

/-- A payload with no usable ticker objects leaves the cache alone. -/
theorem applyPayload_no_usable (m : List (Json × Json)) (p : Json)
    (h : usableTickers p = []) : applyPayload m p = m := by
  cases p with
  | arr entries =>
    simp only [usableTickers] at h
    show List.foldl applyEntry m entries = m
    exact foldl_applyEntry_no_usable entries m (fun e he => by
      simpa using List.filter_eq_nil_iff.mp h e he)
  | null =>
    simp only [usableTickers] at h
    show applyEntry m Json.null = m
    cases hu : entryUsable Json.null with
    | true => simp [hu] at h
    | false => exact applyEntry_not_usable m _ hu
  | bool b =>
    simp only [usableTickers] at h
    show applyEntry m (Json.bool b) = m
    cases hu : entryUsable (Json.bool b) with
    | true => simp [hu] at h
    | false => exact applyEntry_not_usable m _ hu
  | num n =>
    simp only [usableTickers] at h
    show applyEntry m (Json.num n) = m
    cases hu : entryUsable (Json.num n) with
    | true => simp [hu] at h
    | false => exact applyEntry_not_usable m _ hu
  | str t =>
    simp only [usableTickers] at h
    show applyEntry m (Json.str t) = m
    cases hu : entryUsable (Json.str t) with
    | true => simp [hu] at h
    | false => exact applyEntry_not_usable m _ hu
  | obj fs =>
    simp only [usableTickers] at h
    show applyEntry m (Json.obj fs) = m
    cases hu : entryUsable (Json.obj fs) with
    | true => simp [hu] at h
    | false => exact applyEntry_not_usable m _ hu

/-- A usable single-ticker entry is written to the cache under its `s` field. -/
theorem applyEntry_ticker (m : List (Json × Json)) (entry : Json) (sym : String)
    (h : getField entry "s" = some (Json.str sym)) (hsym : sym ≠ "") :
    applyEntry m entry = mapSet m (Json.str sym) entry := by
  obtain ⟨fs, rfl⟩ := getField_some_obj h
  unfold applyEntry
  rw [h]
  simp [truthy, hsym]

/-- A frame carrying one plain ticker object for `sym` (no `data` wrapper)
stamps the message time and writes the object to the cache under `sym`. -/
theorem step_message_ticker (t : WatcherState) (now : Nat) (v : Json) (sym : String)
    (hex : t.exited = none) (hd : getField v "data" = none)
    (hs : getField v "s" = some (Json.str sym)) (hsym : sym ≠ "") :
    step t (Event.messageEv now (some v)) =
      ({ t with lastMessageTs := now,
                dataMap := mapSet t.dataMap (Json.str sym) v }, []) := by
  obtain ⟨fs, hv⟩ := getField_some_obj hs
  have hr : resolvePayload v = v := by
    unfold resolvePayload
    rw [hd]
  have happ : applyPayload t.dataMap v = mapSet t.dataMap (Json.str sym) v := by
    have h0 : applyPayload t.dataMap v = applyEntry t.dataMap v := by
      rw [hv]
      rfl
    rw [h0]
    exact applyEntry_ticker t.dataMap v sym hs hsym
  simp [step, hex, handleMessage, hr, happ]

/-! ### Claim theorems -/

/-- C1: for every requested symbol list (count `n` after config parsing, with
threshold `T = USE_ALL_MINI_THRESHOLD = 200` and cap `C = MAX_STREAMS = 512`):
if `n > T` the produced plan is the aggregate one, whose URL subscribes to the
single all-symbols stream `!miniTicker@arr` and ignores the individual
symbols; otherwise the plan is multiplexed over the first `min n C` symbols —
each the lower-cased trim of a requested symbol — with one
`<symbol>@miniTicker` path segment per symbol joined by `/`.  The `T` branch
is decided before the `C` cap is ever applied. -/
theorem C1_subscription_plan (raw TIME_UNIT : String) :
    (∀ s ∈ parseSymbols raw, ∃ r ∈ jsSplitComma raw, s = jsToLower (jsTrim r)) ∧
    ((parseSymbols raw).length > USE_ALL_MINI_THRESHOLD →
      buildUrl (parseSymbols raw) TIME_UNIT =
        ENDPOINT ++ "?streams=!miniTicker@arr" ++ timeUnitSuffix TIME_UNIT) ∧
    ((parseSymbols raw).length ≤ USE_ALL_MINI_THRESHOLD →
      buildUrl (parseSymbols raw) TIME_UNIT =
        ENDPOINT ++ "?streams=" ++
          String.intercalate "/"
            (((parseSymbols raw).take (min (parseSymbols raw).length MAX_STREAMS)).map
              (fun s => s ++ "@miniTicker")) ++
          timeUnitSuffix TIME_UNIT) := by
  refine ⟨?_, ?_, ?_⟩
  · intro s hs
    unfold parseSymbols at hs
    rw [List.mem_filter] at hs
    rcases List.mem_map.mp hs.1 with ⟨r, hr, hrs⟩
    exact ⟨r, hr, hrs.symm⟩
  · intro h
    unfold buildUrl
    rw [if_pos h]
  · intro h
    unfold buildUrl
    rw [if_neg (by omega)]
    have h512 : (parseSymbols raw).length ≤ MAX_STREAMS := by
      unfold USE_ALL_MINI_THRESHOLD at h; unfold MAX_STREAMS; omega
    rw [List.take_of_length_le h512, min_eq_left h512, List.take_length _]

/-- Witness for C1 at the spec's own end-to-end example: two requested
symbols produce the two-segment multiplexed URL. -/
theorem C1_witness :
    buildUrl (parseSymbols "BTCUSDT,ETHUSDT") "" =
      "wss://data-stream.binance.vision/stream?streams=btcusdt@miniTicker/ethusdt@miniTicker" := by
  have h := (C1_subscription_plan "BTCUSDT,ETHUSDT" "").2.2 (by decide)
  rw [h]
  decide

/-- C2 as frozen is falsified by the code: in the run below the cumulative
disconnect counter reaches the budget `MAX_DISCONNECTS = 5` (the fifth close
arrives after an embedded host called `stopMarketWatcher(null)`), yet the
engine never terminates with a non-zero status — the close handler's
`shuttingDown` early-return sits before the budget check. -/
theorem C2_counterexample :
    (run initState [Event.startEv, Event.closeEv 0, Event.closeEv 0, Event.closeEv 0,
        Event.closeEv 0, Event.stopEv none, Event.closeEv 0]).disconnectCount =
      MAX_DISCONNECTS ∧
    (run initState [Event.startEv, Event.closeEv 0, Event.closeEv 0, Event.closeEv 0,
        Event.closeEv 0, Event.stopEv none, Event.closeEv 0]).exited = none := by
  constructor <;> rfl

/-- C2 (amended): the cumulative disconnect counter is incremented on every
socket close and never reset by a successful open; provided shutdown has not
been requested, once the counter reaches the budget `MAX_DISCONNECTS` the
close handler terminates the process with status `1` and schedules no
reconnect, and a terminated process absorbs every later event, so no further
`Connecting` transition ever occurs in that run. -/
theorem C2_disconnect_budget (s : WatcherState) (rand : ℚ)
    (hex : s.exited = none) :
    ((step s (Event.closeEv rand)).1.disconnectCount = s.disconnectCount + 1) ∧
    (∀ now, ((step s (Event.openEv now)).1).disconnectCount = s.disconnectCount) ∧
    (s.shuttingDown = false → s.disconnectCount + 1 ≥ MAX_DISCONNECTS →
      (step s (Event.closeEv rand)).1.exited = some 1 ∧
        (step s (Event.closeEv rand)).2 = []) ∧
    (∀ (s2 : WatcherState), s2.exited.isSome → ∀ es, run s2 es = s2) := by
  have hstep : step s (Event.closeEv rand) = handleClose s rand := by
    simp [step, hex]
  refine ⟨?_, ?_, ?_, ?_⟩
  · rw [hstep]
    unfold handleClose attemptReconnect
    dsimp only
    split
    · rfl
    · split <;> rfl
  · intro now
    simp [step, hex, handleOpen]
  · intro hsd hb
    have hcl : handleClose s rand =
        ({ s with disconnectCount := s.disconnectCount + 1, exited := some 1 }, []) := by
      unfold handleClose
      dsimp only
      rw [if_neg (by simp [hsd]), if_pos hb]
    rw [hstep, hcl]
    exact ⟨rfl, rfl⟩
  · intro s2 h es
    induction es with
    | nil => rfl
    | cons e es ih =>
      have h1 : (step s2 e).1 = s2 := by simp [step, h]
      rw [run, h1]
      exact ih

/-- Witness for C2's amended theorem: from a live state with four cumulative
disconnects, the fifth close exits with status `1`. -/
theorem C2_disconnect_budget_witness :
    (step { initState with disconnectCount := 4 } (Event.closeEv 0)).1.exited = some 1 := by
  have h := C2_disconnect_budget { initState with disconnectCount := 4 } 0 rfl
  exact (h.2.2.1 rfl (by decide)).1

/-- C3: for the `k`-th consecutive reconnect attempt (`k = 1` for the first
retry after a close, no intervening successful open), the scheduled reconnect
delay equals `min (1000 * 2 ^ min k 5) 15000` milliseconds plus a jitter
`rand * 500` with `0 ≤ rand * 500 < 500`; the reconnect-attempt counter is
reset to `0` only by a successful open. -/
theorem C3_backoff (s : WatcherState) (rand : ℚ) (k : Nat)
    (hex : s.exited = none) (hsd : s.shuttingDown = false)
    (hb : s.disconnectCount + 1 < MAX_DISCONNECTS)
    (hk : s.reconnectAttempts + 1 = k)
    (hr0 : 0 ≤ rand) (hr1 : rand < 1) :
    (step s (Event.closeEv rand)).1.reconnectAttempts = k ∧
    (step s (Event.closeEv rand)).2 =
      [Action.scheduleReconnect (min (1000 * (2 : ℚ) ^ (min k 5)) 15000 + rand * 500)] ∧
    0 ≤ rand * 500 ∧ rand * 500 < 500 ∧
    (∀ (s2 : WatcherState) (e : Event),
      (step s2 e).1.reconnectAttempts < s2.reconnectAttempts →
        ∃ now, e = Event.openEv now) := by
  have hstep : step s (Event.closeEv rand) =
      attemptReconnect { s with disconnectCount := s.disconnectCount + 1 } rand := by
    have h1 : step s (Event.closeEv rand) = handleClose s rand := by simp [step, hex]
    rw [h1]
    unfold handleClose
    dsimp only
    rw [if_neg (by simp [hsd]), if_neg (Nat.not_le.mpr hb)]
  refine ⟨?_, ?_, ?_, ?_, ?_⟩
  · rw [hstep]
    unfold attemptReconnect
    dsimp only
    omega
  · rw [hstep]
    unfold attemptReconnect
    dsimp only
    rw [hk]
  · exact mul_nonneg hr0 (by norm_num)
  · have h500 : rand * 500 < 1 * 500 := mul_lt_mul_of_pos_right hr1 (by norm_num)
    linarith
  · exact reconnectAttempts_decrease_only_on_open

/-- Witness for C3 at the spec's own example: attempt counter `2` before the
close, so `k = 3`, base delay `min (1000 * 8) 15000 = 8000` ms, and with
`rand = 1/4` the scheduled delay is `8125` ms. -/
theorem C3_witness :
    (step { initState with reconnectAttempts := 2 } (Event.closeEv (1/4))).2 =
      [Action.scheduleReconnect 8125] := by
  have h := (C3_backoff { initState with reconnectAttempts := 2 } (1/4) 3 rfl rfl
    (by decide) rfl (by norm_num) (by norm_num)).2.1
  rw [h]
  norm_num

/-- C4: for every inbound heartbeat ping, the handler stamps the last-ping
timestamp and, within the same processing turn, emits exactly one outbound
pong carrying the identical payload, stamping the last-pong timestamp; no
other state field changes. -/
theorem C4_ping_pong (s : WatcherState) (now : Nat) (payload : List Nat)
    (hex : s.exited = none) :
    step s (Event.pingEv now payload) =
      ({ s with lastPingTs := now, lastPongTs := now }, [Action.sendPong payload]) := by
  simp [step, hex, handlePing]

/-- Witness for C4: a concrete ping is answered by the single matching pong. -/
theorem C4_witness :
    step initState (Event.pingEv 1234 [7, 8]) =
      ({ initState with lastPingTs := 1234, lastPongTs := 1234 },
        [Action.sendPong [7, 8]]) :=
  C4_ping_pong initState 1234 [7, 8] rfl

/-- C5: on a Health Monitor tick at time `now` with the session currently
Open (a socket exists and its readyState is OPEN) and with a last observed
peer heartbeat ping on record (a nonzero `lastPingTs` stamp), if the silence
since that ping exceeds `UNSOLICITED_PING_AFTER_MS` (50 s) the tick emits
exactly one outbound heartbeat ping frame — `Action.sendPing` is `ws.ping()`,
whose payload is empty — and no tick ever emits more than one. -/
theorem C5_unsolicited_ping (s : WatcherState) (now : Nat)
    (hex : s.exited = none) (hsd : s.shuttingDown = false)
    (hping : s.lastPingTs ≠ 0)
    (hsil : now - s.lastPingTs > UNSOLICITED_PING_AFTER_MS)
    (hws : s.wsExists = true) :
    (step s (Event.healthTick now true)).2.count Action.sendPing = 1 ∧
    (∀ (s2 : WatcherState) (n2 : Nat) (b : Bool),
      (step s2 (Event.healthTick n2 b)).2.count Action.sendPing ≤ 1) := by
  constructor
  · have hstep : step s (Event.healthTick now true) = handleHealthTick s now true := by
      simp [step, hex]
    rw [hstep]
    unfold handleHealthTick
    rw [if_neg (by simp [hsd])]
    have hguard : (s.lastPingTs != 0 &&
        decide (now - s.lastPingTs > UNSOLICITED_PING_AFTER_MS) && s.wsExists && true) =
        true := by
      simp [hping, hsil, hws]
    rw [hguard]
    dsimp only
    split
    · unfold safeReconnect connectStep
      split <;> simp [List.count_cons, List.count_nil]
    · simp [List.count_cons, List.count_nil]
  · intro s2 n2 b
    by_cases hx : s2.exited.isSome
    · simp [step, hx]
    · have hstep : step s2 (Event.healthTick n2 b) = handleHealthTick s2 n2 b := by
        simp [step, hx]
      rw [hstep]
      unfold handleHealthTick safeReconnect connectStep
      split_ifs <;> simp [List.count_cons, List.count_nil]

/-- Witness for C5: fifty-one seconds of ping silence on an open session
produce exactly one unsolicited ping on the next tick. -/
theorem C5_witness :
    (step { initState with wsExists := true, lastPingTs := 1000 }
      (Event.healthTick 52001 true)).2.count Action.sendPing = 1 := by
  exact (C5_unsolicited_ping { initState with wsExists := true, lastPingTs := 1000 }
    52001 rfl rfl (by decide) (by decide) rfl).1

/-- C6 as frozen is falsified by the code: `stopMarketWatcher()` called with
the argument omitted runs with the JS default parameter `code = 0`, so the
process IS terminated (with exit status `0`) rather than the no-argument call
opting out of termination. -/
theorem C6_counterexample :
    (stopOmittedArg (run initState [Event.startEv])).1.exited = some 0 := by
  rfl

/-- C6 (amended): `stop(exitCode)` sets the shutdown flag, cancels all three
timers, attempts a best-effort graceful close of the active session (none is
attempted when no socket exists; a close failure is swallowed by the
`try`/`catch`), and terminates the owning process with the given exit code —
except that a caller who passes an explicit `null` exit code opts out, in
which case the process is not terminated; omitting the argument is not an
opt-out, it defaults to exit code `0`. -/
theorem C6_stop (s : WatcherState) (code : Option Int)
    (hex : s.exited = none) (hsd : s.shuttingDown = false) :
    (step s (Event.stopEv code)).1.shuttingDown = true ∧
    (step s (Event.stopEv code)).1.displayTimerOn = false ∧
    (step s (Event.stopEv code)).1.healthTimerOn = false ∧
    (step s (Event.stopEv code)).1.hardResetOn = false ∧
    (step s (Event.stopEv code)).2 = (if s.wsExists then [Action.sendClose] else []) ∧
    (step s (Event.stopEv code)).1.exited = code ∧
    stopOmittedArg s = step s (Event.stopEv (some stopDefaultExitCode)) := by
  have hstep : step s (Event.stopEv code) = stopMarketWatcher s code := by
    simp [step, hex]
  have homit : stopOmittedArg s = step s (Event.stopEv (some stopDefaultExitCode)) := by
    simp [step, hex, stopOmittedArg]
  rw [hstep]
  unfold stopMarketWatcher
  rw [if_neg (by simp [hsd])]
  cases code with
  | none => exact ⟨rfl, rfl, rfl, rfl, rfl, hex, homit⟩
  | some c => exact ⟨rfl, rfl, rfl, rfl, rfl, rfl, homit⟩

/-- Witness for C6's amended theorem: the explicit-`null` call shuts the
engine down without terminating the process. -/
theorem C6_witness :
    (step (run initState [Event.startEv]) (Event.stopEv none)).1.shuttingDown = true ∧
    (step (run initState [Event.startEv]) (Event.stopEv none)).1.exited = none := by
  have h := C6_stop (run initState [Event.startEv]) none rfl rfl
  exact ⟨h.1, h.2.2.2.2.2.1⟩

/-- C7: the Snapshot Cache is last-write-wins per symbol — after two inbound
updates carrying ticker objects for the same symbol, reading the cache at that
symbol yields exactly the second object — and no inbound message ever shrinks
the cache (entries are never deleted during a run). -/
theorem C7_last_write_wins (s : WatcherState) (now1 now2 : Nat) (sym : String)
    (v1 v2 : Json) (hex : s.exited = none)
    (hd1 : getField v1 "data" = none) (hd2 : getField v2 "data" = none)
    (h1 : getField v1 "s" = some (Json.str sym))
    (h2 : getField v2 "s" = some (Json.str sym))
    (hsym : sym ≠ "") :
    mapGet (run s [Event.messageEv now1 (some v1),
        Event.messageEv now2 (some v2)]).dataMap (Json.str sym) = some v2 ∧
    (∀ (s2 : WatcherState) (now : Nat) (raw : Option Json),
      s2.dataMap.length ≤ (step s2 (Event.messageEv now raw)).1.dataMap.length) := by
  constructor
  · rw [run, run, run]
    rw [step_message_ticker s now1 v1 sym hex hd1 h1 hsym]
    dsimp only
    rw [step_message_ticker
      { s with lastMessageTs := now1, dataMap := mapSet s.dataMap (Json.str sym) v1 }
      now2 v2 sym hex hd2 h2 hsym]
    dsimp only
    exact mapGet_mapSet_self _ _ _ (by simp [jsonBeq])
  · intro s2 now raw
    by_cases hx : s2.exited.isSome
    · simp [step, hx]
    · cases raw with
      | none => simp [step, hx, handleMessage]
      | some msg =>
        simp only [step, hx, Bool.false_eq_true, if_false, handleMessage]
        exact length_le_applyPayload s2.dataMap (resolvePayload msg)

/-- Witness for C7: two updates for `BTCUSDT`; the read yields the second. -/
theorem C7_witness :
    mapGet (run initState
      [Event.messageEv 1 (some (Json.obj [("s", Json.str "BTCUSDT"), ("c", Json.str "100")])),
       Event.messageEv 2 (some (Json.obj [("s", Json.str "BTCUSDT"), ("c", Json.str "200")]))]).dataMap
      (Json.str "BTCUSDT") =
      some (Json.obj [("s", Json.str "BTCUSDT"), ("c", Json.str "200")]) := by
  exact (C7_last_write_wins initState 1 2 "BTCUSDT"
    (Json.obj [("s", Json.str "BTCUSDT"), ("c", Json.str "100")])
    (Json.obj [("s", Json.str "BTCUSDT"), ("c", Json.str "200")])
    rfl rfl rfl rfl rfl (by decide)).1

/-- C8: once the shutdown flag is set, no event ever clears it, and every
timer callback (telemetry display, health, hard reset, pending reconnect) as
well as the transport close handler then performs no outbound action and
schedules no work — the close handler still increments the cumulative
disconnect counter (its only effect), and never reconnects or exits. -/
theorem C8_shutdown_irreversible (s : WatcherState) (hsd : s.shuttingDown = true) :
    (∀ e, (step s e).1.shuttingDown = true) ∧
    (∀ now, step s (Event.displayTick now) = (s, [])) ∧
    (∀ now b, step s (Event.healthTick now b) = (s, [])) ∧
    (step s Event.hardResetFire = (s, [])) ∧
    (step s Event.reconnectFire = (s, [])) ∧
    (∀ rand : ℚ, (step s (Event.closeEv rand)).2 = [] ∧
      ((step s (Event.closeEv rand)).1 = { s with disconnectCount := s.disconnectCount + 1 } ∨
        (step s (Event.closeEv rand)).1 = s)) := by
  by_cases hx : s.exited.isSome
  · have habs : ∀ e, step s e = (s, []) := by
      intro e
      unfold step
      rw [if_pos hx]
    exact ⟨fun e => by rw [habs e]; exact hsd,
      fun now => habs _, fun now b => habs _, habs _, habs _,
      fun rand => ⟨by rw [habs _], Or.inr (by rw [habs _])⟩⟩
  · refine ⟨?_, ?_, ?_, ?_, ?_, ?_⟩
    · intro e
      cases e with
      | openEv now => simp [step, hx, handleOpen, hsd]
      | pingEv now payload => simp [step, hx, handlePing, hsd]
      | pongEv now => simp [step, hx, handlePong, hsd]
      | messageEv now raw =>
        cases raw <;> simp [step, hx, handleMessage, hsd]
      | closeEv rand => simp [step, hx, handleClose, hsd]
      | errorEv => simp [step, hx, handleError, hsd]
      | healthTick now b => simp [step, hx, handleHealthTick, hsd]
      | displayTick now => simp [step, hx, handleDisplayTick, hsd]
      | hardResetFire => simp [step, hx, handleHardReset, hsd]
      | reconnectFire => simp [step, hx, handleReconnectFire, hsd]
      | startEv =>
        simp only [step, hx, Bool.false_eq_true, if_false, startMarketWatcher, connectStep]
        split <;> simp [hsd]
      | stopEv code => simp [step, hx, stopMarketWatcher, hsd]
    · intro now
      simp [step, hx, handleDisplayTick, hsd]
    · intro now b
      simp [step, hx, handleHealthTick, hsd]
    · simp [step, hx, handleHardReset, hsd]
    · simp [step, hx, handleReconnectFire, hsd]
    · intro rand
      refine ⟨by simp [step, hx, handleClose, hsd], Or.inl ?_⟩
      simp [step, hx, handleClose, hsd]

/-- Witness for C8 at a concrete shut-down state: a health tick is absorbed
with no action and the flag stays set. -/
theorem C8_witness :
    step { initState with shuttingDown := true } (Event.healthTick 999999 true) =
      ({ initState with shuttingDown := true }, []) :=
  (C8_shutdown_irreversible { initState with shuttingDown := true } rfl).2.2.1 999999 true

/-- C9: an inbound frame that fails JSON parsing, or parses to a shape with
no usable ticker objects, is non-fatal and leaves the cache, the session
fields and all counters unchanged — the only effect of any inbound message is
that the last-message timestamp is stamped. -/
theorem C9_malformed_frames (s : WatcherState) (now : Nat) (hex : s.exited = none) :
    (step s (Event.messageEv now none) = ({ s with lastMessageTs := now }, [])) ∧
    (∀ raw, (step s (Event.messageEv now raw)).1.lastMessageTs = now) ∧
    (∀ msg, usableTickers (resolvePayload msg) = [] →
      step s (Event.messageEv now (some msg)) = ({ s with lastMessageTs := now }, [])) := by
  refine ⟨?_, ?_, ?_⟩
  · simp [step, hex, handleMessage]
  · intro raw
    cases raw <;> simp [step, hex, handleMessage]
  · intro msg hmsg
    have hmap : applyPayload s.dataMap (resolvePayload msg) = s.dataMap :=
      applyPayload_no_usable s.dataMap (resolvePayload msg) hmsg
    simp [step, hex, handleMessage, hmap]

/-- Witness for C9: an unparseable frame at time `42` only stamps the
last-message timestamp. -/
theorem C9_witness :
    step initState (Event.messageEv 42 none) =
      ({ initState with lastMessageTs := 42 }, []) :=
  (C9_malformed_frames initState 42 rfl).1

/-- C10: in the initial state where no peer heartbeat ping has ever been
observed (`lastPingTs` still holds its initial value `0`), every Health
Monitor tick at a wall-clock time beyond the 75 s grace threshold invokes the
forced termination/reconnect (`safeReconnect`: terminate the existing socket,
or connect if none exists) — regardless of how recently the session opened,
how recently data messages arrived, or the transport's readyState — while the
unsolicited-heartbeat send never fires, being guarded by `lastPingTs` nonzero. -/
theorem C10_initial_grace (s : WatcherState) (now : Nat) (wsOpen : Bool)
    (hex : s.exited = none) (hsd : s.shuttingDown = false)
    (hping : s.lastPingTs = 0) (hnow : now > GRACE_NO_PING_MS) :
    step s (Event.healthTick now wsOpen) =
      (if s.wsExists then (s, [Action.terminateSocket])
       else ({ s with wsExists := true, connectCount := s.connectCount + 1 },
         [Action.openSocket])) ∧
    (step s (Event.healthTick now wsOpen)).2.count Action.sendPing = 0 := by
  have hstep : step s (Event.healthTick now wsOpen) =
      (if s.wsExists then (s, [Action.terminateSocket])
       else ({ s with wsExists := true, connectCount := s.connectCount + 1 },
         [Action.openSocket])) := by
    have h1 : step s (Event.healthTick now wsOpen) = handleHealthTick s now wsOpen := by
      simp [step, hex]
    rw [h1]
    unfold handleHealthTick
    rw [if_neg (by simp [hsd])]
    have hguard : (s.lastPingTs != 0 &&
        decide (now - s.lastPingTs > UNSOLICITED_PING_AFTER_MS) && s.wsExists && wsOpen) =
        false := by
      simp [hping]
    rw [hguard]
    dsimp only
    rw [if_pos (by rw [hping]; simpa using hnow)]
    unfold safeReconnect connectStep
    cases hw : s.wsExists <;> simp [hw]
  refine ⟨hstep, ?_⟩
  rw [hstep]
  split <;> simp [List.count_cons, List.count_nil]

/-- Witness for C10: right after start (socket exists, no ping ever seen), a
tick at 80 s forces termination of the transport and sends no ping. -/
theorem C10_witness :
    step (run initState [Event.startEv]) (Event.healthTick 80000 true) =
      (run initState [Event.startEv], [Action.terminateSocket]) := by
  have h := (C10_initial_grace (run initState [Event.startEv]) 80000 true
    rfl rfl rfl (by decide)).1
  rw [h]
  rfl

end MarketWatcher
